import Mathlib

/-!
Shallow embedding of `stalkerlib` (package stalkerlib, file stalkerlib.go),
a Go client for the Stalker IPTV middleware protocol.

The HTTP transport is external to the library; an operation that in Go
performs `client.Do(req)` is embedded as a function taking the response the
transport would deliver, as an `Option HttpResponse` (`none` models a
transport error, in which case Go's `client.Do` returns a non-nil `err` and
a nil response).  Each operation additionally returns the list of protocol
requests it issued, so that "no network call" is expressible.

Response bodies are modelled at the byte-stream level by a three-way `Body`:
bytes that parse as a JSON value, gzip-compressed bytes whose inflation
parses as a JSON value, and everything else.  `encoding/json` decoding into
the library's response structs (an external Go library) is embedded by
per-struct field folds with Go's documented semantics: unknown object keys
are skipped, a JSON `null` leaves the target field unchanged, a type
mismatch is a decode error, absent fields keep their zero values, and later
duplicate keys are decoded over earlier ones.  (Go's case-insensitive key
fallback is not modelled; no input considered here exercises it.)
-/

namespace Stalkerlib

/-- JSON values, as decoded from a response body. -/
inductive Json where
  | null : Json
  | bool (b : Bool) : Json
  | num (n : Int) : Json
  | str (s : String) : Json
  | arr (elems : List Json) : Json
  | obj (fields : List (String × Json)) : Json

/-- A response body as delivered by the transport. -/
inductive Body where
  | json (j : Json) : Body
  | gzipJson (j : Json) : Body
  | malformed : Body

/-- `gzip.NewReader` over a body: succeeds exactly on gzip-compressed bytes,
yielding the inflated stream. -/
def gzipNewReader : Body → Option Body
  | Body.gzipJson j => some (Body.json j)
  | _ => none

/-- An HTTP response, reduced to the fields stalkerlib.go inspects. -/
structure HttpResponse where
  statusCode : Nat
  contentEncoding : String
  body : Body

/- Response structs of stalkerlib.go (HandshakeResponse, Channel,
   ChannelListResponse, CreateLinkResponse, EPGProgram, EPGResponse). -/

structure HandshakeJs where
  token : String
deriving DecidableEq

structure HandshakeResponse where
  js : HandshakeJs
deriving DecidableEq

structure Channel where
  id : String
  name : String
  cmd : String
  logo : String
deriving DecidableEq

structure ChannelListJs where
  channels : List Channel
deriving DecidableEq

structure ChannelListResponse where
  js : ChannelListJs
deriving DecidableEq

structure CreateLinkJs where
  cmd : String
deriving DecidableEq

structure CreateLinkResponse where
  js : CreateLinkJs
deriving DecidableEq

structure EPGProgram where
  channelID : String
  name : String
  start : Int
  stop : Int
  desc : String
  category : String
deriving DecidableEq

structure EPGJs where
  programs : List EPGProgram
deriving DecidableEq

structure EPGResponse where
  js : EPGJs
deriving DecidableEq

/-- Decode a JSON value into a Go `string` field whose current value is
`cur` (null is a no-op, a non-string is an error). -/
def decGoString (cur : String) : Json → Option String
  | Json.str s => some s
  | Json.null => some cur
  | _ => none

/-- Decode a JSON value into a Go `int64` field whose current value is
`cur`. -/
def decGoInt (cur : Int) : Json → Option Int
  | Json.num n => some n
  | Json.null => some cur
  | _ => none

/-- Field-by-field decoding of the inner handshake object `{token}`. -/
def decHandshakeJsFields (cur : HandshakeJs) : List (String × Json) → Option HandshakeJs
  | [] => some cur
  | (k, v) :: rest =>
    if k = "token" then
      match decGoString cur.token v with
      | some s => decHandshakeJsFields { cur with token := s } rest
      | none => none
    else decHandshakeJsFields cur rest

/-- Decode a JSON value into the inner handshake struct. -/
def decHandshakeJs (cur : HandshakeJs) : Json → Option HandshakeJs
  | Json.obj fs => decHandshakeJsFields cur fs
  | Json.null => some cur
  | _ => none

/-- Field-by-field decoding of the outer handshake object `{js:{token}}`. -/
def decHandshakeFields (cur : HandshakeResponse) : List (String × Json) → Option HandshakeResponse
  | [] => some cur
  | (k, v) :: rest =>
    if k = "js" then
      match decHandshakeJs cur.js v with
      | some js => decHandshakeFields { cur with js := js } rest
      | none => none
    else decHandshakeFields cur rest

/-- Decode a JSON value into `HandshakeResponse`. -/
def decHandshake (cur : HandshakeResponse) : Json → Option HandshakeResponse
  | Json.obj fs => decHandshakeFields cur fs
  | Json.null => some cur
  | _ => none

/-- `json.NewDecoder(body).Decode(&HandshakeResponse{})`. -/
def decodeHandshakeBody : Body → Option HandshakeResponse
  | Body.json j => decHandshake { js := { token := "" } } j
  | _ => none

/-- Field-by-field decoding of the inner create-link object `{cmd}`. -/
def decCreateLinkJsFields (cur : CreateLinkJs) : List (String × Json) → Option CreateLinkJs
  | [] => some cur
  | (k, v) :: rest =>
    if k = "cmd" then
      match decGoString cur.cmd v with
      | some s => decCreateLinkJsFields { cur with cmd := s } rest
      | none => none
    else decCreateLinkJsFields cur rest

/-- Decode a JSON value into the inner create-link struct. -/
def decCreateLinkJs (cur : CreateLinkJs) : Json → Option CreateLinkJs
  | Json.obj fs => decCreateLinkJsFields cur fs
  | Json.null => some cur
  | _ => none

/-- Field-by-field decoding of the outer create-link object `{js:{cmd}}`. -/
def decCreateLinkFields (cur : CreateLinkResponse) : List (String × Json) → Option CreateLinkResponse
  | [] => some cur
  | (k, v) :: rest =>
    if k = "js" then
      match decCreateLinkJs cur.js v with
      | some js => decCreateLinkFields { cur with js := js } rest
      | none => none
    else decCreateLinkFields cur rest

/-- Decode a JSON value into `CreateLinkResponse`. -/
def decCreateLink (cur : CreateLinkResponse) : Json → Option CreateLinkResponse
  | Json.obj fs => decCreateLinkFields cur fs
  | Json.null => some cur
  | _ => none

/-- `json.NewDecoder(body).Decode(&CreateLinkResponse{})`. -/
def decodeCreateLinkBody : Body → Option CreateLinkResponse
  | Body.json j => decCreateLink { js := { cmd := "" } } j
  | _ => none

/-- Field-by-field decoding of a channel object `{id,name,cmd,logo}`. -/
def decChannelFields (cur : Channel) : List (String × Json) → Option Channel
  | [] => some cur
  | (k, v) :: rest =>
    if k = "id" then
      match decGoString cur.id v with
      | some s => decChannelFields { cur with id := s } rest
      | none => none
    else if k = "name" then
      match decGoString cur.name v with
      | some s => decChannelFields { cur with name := s } rest
      | none => none
    else if k = "cmd" then
      match decGoString cur.cmd v with
      | some s => decChannelFields { cur with cmd := s } rest
      | none => none
    else if k = "logo" then
      match decGoString cur.logo v with
      | some s => decChannelFields { cur with logo := s } rest
      | none => none
    else decChannelFields cur rest

/-- Decode a JSON value into a `Channel` struct. -/
def decChannel (cur : Channel) : Json → Option Channel
  | Json.obj fs => decChannelFields cur fs
  | Json.null => some cur
  | _ => none

/-- Decode a JSON array element list into a `[]Channel` slice (each element
starts from the zero-valued struct). -/
def decChannelElems : List Json → Option (List Channel)
  | [] => some []
  | j :: rest =>
    match decChannel { id := "", name := "", cmd := "", logo := "" } j with
    | some ch =>
      match decChannelElems rest with
      | some chs => some (ch :: chs)
      | none => none
    | none => none

/-- Decode a JSON value into a `[]Channel` field whose current value is
`cur`. -/
def decChannelSlice (cur : List Channel) : Json → Option (List Channel)
  | Json.arr xs => decChannelElems xs
  | Json.null => some cur
  | _ => none

/-- Field-by-field decoding of the inner channel-list object `{channels}`. -/
def decChannelListJsFields (cur : ChannelListJs) : List (String × Json) → Option ChannelListJs
  | [] => some cur
  | (k, v) :: rest =>
    if k = "channels" then
      match decChannelSlice cur.channels v with
      | some chs => decChannelListJsFields { cur with channels := chs } rest
      | none => none
    else decChannelListJsFields cur rest

/-- Decode a JSON value into the inner channel-list struct. -/
def decChannelListJs (cur : ChannelListJs) : Json → Option ChannelListJs
  | Json.obj fs => decChannelListJsFields cur fs
  | Json.null => some cur
  | _ => none

/-- Field-by-field decoding of the outer channel-list object
`{js:{channels}}`. -/
def decChannelListFields (cur : ChannelListResponse) : List (String × Json) → Option ChannelListResponse
  | [] => some cur
  | (k, v) :: rest =>
    if k = "js" then
      match decChannelListJs cur.js v with
      | some js => decChannelListFields { cur with js := js } rest
      | none => none
    else decChannelListFields cur rest

/-- Decode a JSON value into `ChannelListResponse`. -/
def decChannelList (cur : ChannelListResponse) : Json → Option ChannelListResponse
  | Json.obj fs => decChannelListFields cur fs
  | Json.null => some cur
  | _ => none

/-- `json.NewDecoder(reader).Decode(&ChannelListResponse{})`. -/
def decodeChannelListBody : Body → Option ChannelListResponse
  | Body.json j => decChannelList { js := { channels := [] } } j
  | _ => none

/-- Field-by-field decoding of an EPG program object
`{ch_id,name,start_timestamp,stop_timestamp,descr,category}`. -/
def decEPGProgramFields (cur : EPGProgram) : List (String × Json) → Option EPGProgram
  | [] => some cur
  | (k, v) :: rest =>
    if k = "ch_id" then
      match decGoString cur.channelID v with
      | some s => decEPGProgramFields { cur with channelID := s } rest
      | none => none
    else if k = "name" then
      match decGoString cur.name v with
      | some s => decEPGProgramFields { cur with name := s } rest
      | none => none
    else if k = "start_timestamp" then
      match decGoInt cur.start v with
      | some n => decEPGProgramFields { cur with start := n } rest
      | none => none
    else if k = "stop_timestamp" then
      match decGoInt cur.stop v with
      | some n => decEPGProgramFields { cur with stop := n } rest
      | none => none
    else if k = "descr" then
      match decGoString cur.desc v with
      | some s => decEPGProgramFields { cur with desc := s } rest
      | none => none
    else if k = "category" then
      match decGoString cur.category v with
      | some s => decEPGProgramFields { cur with category := s } rest
      | none => none
    else decEPGProgramFields cur rest

/-- Decode a JSON value into an `EPGProgram` struct. -/
def decEPGProgram (cur : EPGProgram) : Json → Option EPGProgram
  | Json.obj fs => decEPGProgramFields cur fs
  | Json.null => some cur
  | _ => none

/-- Decode a JSON array element list into a `[]EPGProgram` slice. -/
def decEPGProgramElems : List Json → Option (List EPGProgram)
  | [] => some []
  | j :: rest =>
    match decEPGProgram { channelID := "", name := "", start := 0, stop := 0, desc := "", category := "" } j with
    | some p =>
      match decEPGProgramElems rest with
      | some ps => some (p :: ps)
      | none => none
    | none => none

/-- Decode a JSON value into a `[]EPGProgram` field whose current value is
`cur`. -/
def decEPGProgramSlice (cur : List EPGProgram) : Json → Option (List EPGProgram)
  | Json.arr xs => decEPGProgramElems xs
  | Json.null => some cur
  | _ => none

/-- Field-by-field decoding of the inner EPG object `{programs}`. -/
def decEPGJsFields (cur : EPGJs) : List (String × Json) → Option EPGJs
  | [] => some cur
  | (k, v) :: rest =>
    if k = "programs" then
      match decEPGProgramSlice cur.programs v with
      | some ps => decEPGJsFields { cur with programs := ps } rest
      | none => none
    else decEPGJsFields cur rest

/-- Decode a JSON value into the inner EPG struct. -/
def decEPGJs (cur : EPGJs) : Json → Option EPGJs
  | Json.obj fs => decEPGJsFields cur fs
  | Json.null => some cur
  | _ => none

/-- Field-by-field decoding of the outer EPG object `{js:{programs}}`. -/
def decEPGFields (cur : EPGResponse) : List (String × Json) → Option EPGResponse
  | [] => some cur
  | (k, v) :: rest =>
    if k = "js" then
      match decEPGJs cur.js v with
      | some js => decEPGFields { cur with js := js } rest
      | none => none
    else decEPGFields cur rest

/-- Decode a JSON value into `EPGResponse`. -/
def decEPG (cur : EPGResponse) : Json → Option EPGResponse
  | Json.obj fs => decEPGFields cur fs
  | Json.null => some cur
  | _ => none

/-- `json.NewDecoder(body).Decode(&EPGResponse{})`. -/
def decodeEPGBody : Body → Option EPGResponse
  | Body.json j => decEPG { js := { programs := [] } } j
  | _ => none

/-- ServerConfig of stalkerlib.go: server-specific capabilities determined
by probing. -/
structure ServerConfig where
  SupportsGzip : Bool
  RequiresCreateLink : Bool
deriving DecidableEq

/-- StalkerClient of stalkerlib.go. -/
structure StalkerClient where
  PortalURL : String
  MAC : String
  Timezone : String
  Token : String
  Config : ServerConfig
deriving DecidableEq

/-- The protocol requests an operation can issue (identified by their
`action` query parameter, with the parameters the claims mention). -/
inductive ReqKind where
  | handshake : ReqKind
  | getAllChannels (gzipParam : Bool) : ReqKind
  | createLink (cmd : String) : ReqKind
  | getEpg (chId : String) : ReqKind
deriving DecidableEq

/-- `Authenticate` of stalkerlib.go: performs the handshake action, decodes
`{js:{token}}`, and on success stores the token.  The transport's answer to
the handshake request is `hresp` (`none` = transport error).  The Go method
mutates `c` and returns an `error`; here the success branch carries the
updated client, and the error branches return before the `c.Token`
assignment, so no updated client exists on failure. -/
def authenticate (c : StalkerClient) (hresp : Option HttpResponse) :
    Except String StalkerClient :=
  match hresp with
  | none => Except.error "handshake request failed"
  | some r =>
    match decodeHandshakeBody r.body with
    | none => Except.error "failed to parse handshake response"
    | some response => Except.ok { c with Token := response.js.token }

/-- The gzip-trial condition of `ProbeServer` (stalkerlib.go line 162):
`err == nil && resp.Header.Get("Content-Encoding") == "gzip"`. -/
def gzipTrialSets : Option HttpResponse → Bool
  | some r => r.contentEncoding == "gzip"
  | none => false

/-- The create-link-trial condition of `ProbeServer` (stalkerlib.go lines
175-179): `err == nil && resp.StatusCode == 200`, the body decodes as
`{js:{cmd}}`, and the decoded cmd is non-empty. -/
def linkTrialSets : Option HttpResponse → Bool
  | some r =>
    if r.statusCode == 200 then
      match decodeCreateLinkBody r.body with
      | some response => response.js.cmd != ""
      | none => false
    else false
  | none => false

/-- `ProbeServer` of stalkerlib.go: two trial requests.  The gzip trial sets
`SupportsGzip := true` exactly when `gzipTrialSets` holds of the transport's
answer; the create-link trial sets `RequiresCreateLink := true` exactly
when `linkTrialSets` holds of its answer.  Neither trial writes its flag
otherwise, and the function ends with `return nil`, so the error component
is always `none`. -/
def probeServer (c : StalkerClient) (gzipResp linkResp : Option HttpResponse) :
    StalkerClient × Option String :=
  let c1 := if gzipTrialSets gzipResp then { c with Config.SupportsGzip := true } else c
  let c2 := if linkTrialSets linkResp then { c1 with Config.RequiresCreateLink := true } else c1
  (c2, none)

/-- The reader selection of `GetChannels` (stalkerlib.go lines 226-235):
the gzip inflater is interposed only when `SupportsGzip` is set AND the
response advertises `Content-Encoding: gzip`; a failing `gzip.NewReader`
is an error. -/
def selectReader (cfg : ServerConfig) (r : HttpResponse) : Option Body :=
  if cfg.SupportsGzip ∧ r.contentEncoding = "gzip" then
    gzipNewReader r.body
  else some r.body

/-- `GetChannels` of stalkerlib.go: authenticates if the token is empty,
requests the channel list (with a gzip query parameter iff `SupportsGzip`),
conditionally interposes the gzip reader, and decodes
`{js:{channels:[...]}}`.  `hresp` answers the handshake request (used only
when the token is empty), `chresp` answers the channel-list request.  The
second component is the list of requests issued. -/
def getChannels (c : StalkerClient) (hresp chresp : Option HttpResponse) :
    Except String (List Channel × StalkerClient) × List ReqKind :=
  match (if c.Token = "" then
          (match authenticate c hresp with
           | Except.error e => (Except.error e, [ReqKind.handshake])
           | Except.ok c1 => (Except.ok c1, [ReqKind.handshake]))
         else (Except.ok c, [])) with
  | (Except.error e, tr) => (Except.error e, tr)
  | (Except.ok c1, tr) =>
    let tr1 := tr ++ [ReqKind.getAllChannels c1.Config.SupportsGzip]
    match chresp with
    | none => (Except.error "channels request failed", tr1)
    | some r =>
      match selectReader c1.Config r with
      | none => (Except.error "failed to create gzip reader", tr1)
      | some reader =>
        match decodeChannelListBody reader with
        | none => (Except.error "failed to parse channels response", tr1)
        | some response => (Except.ok (response.js.channels, c1), tr1)

/-- `GetPlaybackURL` of stalkerlib.go: when `RequiresCreateLink` is unset it
returns the channel command unchanged at once (no request issued);
otherwise it authenticates if the token is empty, issues a create-link
request and returns the decoded `js.cmd`. -/
def getPlaybackURL (c : StalkerClient) (hresp linkResp : Option HttpResponse)
    (channelCmd : String) :
    Except String (String × StalkerClient) × List ReqKind :=
  if !c.Config.RequiresCreateLink then
    (Except.ok (channelCmd, c), [])
  else
    match (if c.Token = "" then
            (match authenticate c hresp with
             | Except.error e => (Except.error e, [ReqKind.handshake])
             | Except.ok c1 => (Except.ok c1, [ReqKind.handshake]))
           else (Except.ok c, [])) with
    | (Except.error e, tr) => (Except.error e, tr)
    | (Except.ok c1, tr) =>
      let tr1 := tr ++ [ReqKind.createLink channelCmd]
      match linkResp with
      | none => (Except.error "playback URL request failed", tr1)
      | some r =>
        match decodeCreateLinkBody r.body with
        | none => (Except.error "failed to parse playback URL response", tr1)
        | some response => (Except.ok (response.js.cmd, c1), tr1)

/- Model of the Go `time` package (external library), restricted to what
   stalkerlib.go uses: `time.Unix`, `Time.In`, `Time.Unix`,
   `Time.Format("20060102150405 -0700")`, and `time.LoadLocation` for the
   two IANA zones the specification exercises ("UTC" and
   "America/New_York").  A Go `time.Time` stores an absolute instant plus a
   location; `In` changes only the location, `Unix` returns the instant. -/

/-- The IANA zones modelled from the tz database. -/
inductive Location where
  | utc : Location
  | newYork : Location
deriving DecidableEq

/-- `time.LoadLocation`, on the zone names the specification exercises. -/
def loadLocation : String → Option Location
  | "UTC" => some Location.utc
  | "America/New_York" => some Location.newYork
  | _ => none

/-- Civil date (year, month, day) of a day count since 1970-01-01
(proleptic Gregorian; Hinnant's `civil_from_days`). -/
def civilFromDays (z0 : Int) : Int × Int × Int :=
  let z := z0 + 719468
  let era := z.fdiv 146097
  let doe := z - era * 146097
  let yoe := (doe - doe.fdiv 1460 + doe.fdiv 36524 - doe.fdiv 146096).fdiv 365
  let y := yoe + era * 400
  let doy := doe - (365 * yoe + yoe.fdiv 4 - yoe.fdiv 100)
  let mp := (5 * doy + 2).fdiv 153
  let d := doy - (153 * mp + 2).fdiv 5 + 1
  let m := if mp < 10 then mp + 3 else mp - 9
  (if m ≤ 2 then y + 1 else y, m, d)

/-- Day count since 1970-01-01 of a civil date (Hinnant's
`days_from_civil`). -/
def daysFromCivil (y0 m d : Int) : Int :=
  let y := if m ≤ 2 then y0 - 1 else y0
  let era := y.fdiv 400
  let yoe := y - era * 400
  let mp := if m > 2 then m - 3 else m + 9
  let doy := (153 * mp + 2).fdiv 5 + d - 1
  let doe := yoe * 365 + yoe.fdiv 4 - yoe.fdiv 100 + doy
  era * 146097 + doe - 719468

/-- Epoch second at which US daylight saving time starts in year `y`
(second Sunday of March, 02:00 standard time = 07:00 UTC; the rule in
force since 2007). -/
def dstStartEpoch (y : Int) : Int :=
  let march1 := daysFromCivil y 3 1
  let w := (march1 + 4).emod 7
  let secondSunday := march1 + (7 - w).emod 7 + 7
  secondSunday * 86400 + 7 * 3600

/-- Epoch second at which US daylight saving time ends in year `y`
(first Sunday of November, 02:00 daylight time = 06:00 UTC). -/
def dstEndEpoch (y : Int) : Int :=
  let nov1 := daysFromCivil y 11 1
  let w := (nov1 + 4).emod 7
  let firstSunday := nov1 + (7 - w).emod 7
  firstSunday * 86400 + 6 * 3600

/-- UTC offset in seconds of America/New_York at a given instant
(EDT −04:00 during daylight saving, EST −05:00 otherwise). -/
def nyOffset (epoch : Int) : Int :=
  let y := (civilFromDays (epoch.fdiv 86400)).1
  if dstStartEpoch y ≤ epoch ∧ epoch < dstEndEpoch y then -14400 else -18000

/-- UTC offset in seconds of a location at a given instant. -/
def locOffset : Location → Int → Int
  | Location.utc, _ => 0
  | Location.newYork, epoch => nyOffset epoch

/-- A Go `time.Time`: an absolute instant (seconds since the epoch) plus a
location used for presentation. -/
structure GoTime where
  sec : Int
  loc : Location
deriving DecidableEq

/-- `time.Unix(sec, 0)`: the instant `sec`, in the process-local zone (the
zone is irrelevant to every use below, which immediately calls `In`). -/
def timeUnix (sec : Int) : GoTime := { sec := sec, loc := Location.utc }

/-- `Time.In(loc)`: same instant, presentation location replaced. -/
def GoTime.timeIn (t : GoTime) (l : Location) : GoTime := { t with loc := l }

/-- `Time.Unix()`: the absolute instant, independent of the location. -/
def GoTime.unix (t : GoTime) : Int := t.sec

/-- Left-pad the decimal digits of `n` with zeros to width `w`. -/
def padZero (w : Nat) (n : Nat) : String :=
  let s := toString n
  String.mk (List.replicate (w - s.length) '0') ++ s

/-- The Go layout `"20060102150405 -0700"` applied to the instant `epoch`
presented at UTC offset `offsetSec`: zero-padded YYYYMMDDHHmmss of the
local civil time, a space, and the offset as a sign and zero-padded HHMM. -/
def formatStamp (epoch : Int) (offsetSec : Int) : String :=
  let localSec := epoch + offsetSec
  let days := localSec.fdiv 86400
  let sod := (localSec.emod 86400).toNat
  let ymd := civilFromDays days
  let sign := if offsetSec < 0 then "-" else "+"
  let off := offsetSec.natAbs
  padZero 4 ymd.1.toNat ++ padZero 2 ymd.2.1.toNat ++ padZero 2 ymd.2.2.toNat ++
    padZero 2 (sod / 3600) ++ padZero 2 (sod % 3600 / 60) ++ padZero 2 (sod % 60) ++
    " " ++ sign ++ padZero 2 (off / 3600) ++ padZero 2 (off % 3600 / 60)

/-- `Time.Format("20060102150405 -0700")`. -/
def GoTime.format (t : GoTime) : String :=
  formatStamp t.sec (locOffset t.loc t.sec)

/-- The timestamp-adjustment loop of `GetEPG` (stalkerlib.go lines
340-343): each entry's Start and Stop are replaced by
`time.Unix(v, 0).In(loc).Unix()`. -/
def adjustPrograms (loc : Location) (ps : List EPGProgram) : List EPGProgram :=
  ps.map fun p =>
    { p with
      start := ((timeUnix p.start).timeIn loc).unix
      stop := ((timeUnix p.stop).timeIn loc).unix }

/-- `GetEPG` of stalkerlib.go: authenticates if the token is empty,
requests EPG data for the channel, decodes `{js:{programs:[...]}}`,
resolves the configured timezone (an unresolvable zone is an error), and
runs the timestamp-adjustment loop. -/
def getEPG (c : StalkerClient) (hresp eresp : Option HttpResponse)
    (channelID : String) :
    Except String (List EPGProgram × StalkerClient) × List ReqKind :=
  match (if c.Token = "" then
          (match authenticate c hresp with
           | Except.error e => (Except.error e, [ReqKind.handshake])
           | Except.ok c1 => (Except.ok c1, [ReqKind.handshake]))
         else (Except.ok c, [])) with
  | (Except.error e, tr) => (Except.error e, tr)
  | (Except.ok c1, tr) =>
    let tr1 := tr ++ [ReqKind.getEpg channelID]
    match eresp with
    | none => (Except.error "EPG request failed", tr1)
    | some r =>
      match decodeEPGBody r.body with
      | none => (Except.error "failed to parse EPG response", tr1)
      | some epgResp =>
        match loadLocation c1.Timezone with
        | none => (Except.error "invalid timezone", tr1)
        | some loc => (Except.ok (adjustPrograms loc epgResp.js.programs, c1), tr1)

/-- XMLTVChannel of stalkerlib.go. -/
structure XMLTVChannel where
  id : String
  displayName : String
deriving DecidableEq

/-- XMLTVProgram of stalkerlib.go. -/
structure XMLTVProgram where
  start : String
  stop : String
  channel : String
  title : String
  desc : String
  category : String
deriving DecidableEq

/-- XMLTV of stalkerlib.go (the document structure handed to
`xml.MarshalIndent`; the claims are about this structure, not the
serialized bytes). -/
structure XMLTV where
  channels : List XMLTVChannel
  programs : List XMLTVProgram
deriving DecidableEq

/-- `ConvertEPGToXMLTV` of stalkerlib.go: resolves the configured timezone,
emits one channel declaration whose id and display name are both the
`channelID` argument, and one programme per entry whose channel attribute
is the entry's own ChannelID and whose start/stop are the Go-formatted
stamps of the entry's epochs in the configured zone. -/
def convertEPGToXMLTV (c : StalkerClient) (channelID : String)
    (programs : List EPGProgram) : Except String XMLTV :=
  match loadLocation c.Timezone with
  | none => Except.error "invalid timezone"
  | some loc =>
    Except.ok
      { channels := [{ id := channelID, displayName := channelID }]
        programs := programs.map fun p =>
          { start := ((timeUnix p.start).timeIn loc).format
            stop := ((timeUnix p.stop).timeIn loc).format
            channel := p.channelID
            title := p.name
            desc := p.desc
            category := p.category } }

/- Concrete fixtures (clients, responses, records) used to evaluate the
   embedding at specific inputs. -/

/-- A freshly constructed client (`NewStalkerClient`): empty token, zeroed
ServerConfig. -/
def baseClient : StalkerClient :=
  { PortalURL := "http://portal.example"
    MAC := "00:1A:79:00:00:01"
    Timezone := "UTC"
    Token := ""
    Config := { SupportsGzip := false, RequiresCreateLink := false } }

/-- The base client after a successful handshake. -/
def tokenClient : StalkerClient := { baseClient with Token := "tok" }

/-- An authenticated client configured for America/New_York. -/
def nyClient : StalkerClient := { tokenClient with Timezone := "America/New_York" }

/-- The JSON envelope `{"js":{"channels":[{"id":"1","name":"A","cmd":"http://x","logo":"/l.png"}]}}`. -/
def channelsJson : Json :=
  Json.obj [("js", Json.obj [("channels", Json.arr
    [Json.obj [("id", Json.str "1"), ("name", Json.str "A"),
               ("cmd", Json.str "http://x"), ("logo", Json.str "/l.png")]])])]

/-- The channel record `channelsJson` decodes to. -/
def channelFixture : Channel := { id := "1", name := "A", cmd := "http://x", logo := "/l.png" }

/-- A 200 response whose body is the gzip-compressed channel envelope and
whose Content-Encoding header advertises the compression. -/
def gzipChannelsResp : HttpResponse :=
  { statusCode := 200, contentEncoding := "gzip", body := Body.gzipJson channelsJson }

/-- A 200 create-link response with a non-empty `js.cmd`. -/
def createLinkOkResp : HttpResponse :=
  { statusCode := 200, contentEncoding := ""
    body := Body.json (Json.obj [("js", Json.obj [("cmd", Json.str "ffmpeg http://real/stream")])]) }

/-- A 200 response with an uncompressed, non-envelope body and no
Content-Encoding header. -/
def plainResp : HttpResponse :=
  { statusCode := 200, contentEncoding := "", body := Body.json Json.null }

/-- A 404 response. -/
def notFoundResp : HttpResponse :=
  { statusCode := 404, contentEncoding := "", body := Body.json Json.null }

/-- A handshake response `{"js":{"token":"abc123"}}`. -/
def handshakeOkResp : HttpResponse :=
  { statusCode := 200, contentEncoding := ""
    body := Body.json (Json.obj [("js", Json.obj [("token", Json.str "abc123")])]) }

/-- A syntactically valid handshake response with no `js` member: `{}`. -/
def handshakeEmptyObjResp : HttpResponse :=
  { statusCode := 200, contentEncoding := "", body := Body.json (Json.obj []) }

/-- A syntactically valid handshake response whose `js` member lacks
`token`: `{"js":{}}`. -/
def handshakeEmptyJsResp : HttpResponse :=
  { statusCode := 200, contentEncoding := "", body := Body.json (Json.obj [("js", Json.obj [])]) }

/-- A program entry starting and stopping at epoch 1700000000. -/
def epochProgram : EPGProgram :=
  { channelID := "2", name := "News", start := 1700000000, stop := 1700000000
    desc := "d", category := "c" }

/-- The JSON envelope `{"js":{"programs":[...]}}` that decodes to
`[epochProgram]`. -/
def epgJson : Json :=
  Json.obj [("js", Json.obj [("programs", Json.arr
    [Json.obj [("ch_id", Json.str "2"), ("name", Json.str "News"),
               ("start_timestamp", Json.num 1700000000),
               ("stop_timestamp", Json.num 1700000000),
               ("descr", Json.str "d"), ("category", Json.str "c")]])])]

/-- A 200 EPG response carrying `epgJson` uncompressed. -/
def epgOkResp : HttpResponse :=
  { statusCode := 200, contentEncoding := "", body := Body.json epgJson }

/- Helper lemmas. -/

/-- The timestamp-adjustment loop of `GetEPG` maps every entry to itself:
a Go `time.Time` stores the absolute instant, `In` changes only the
presentation location, and `Unix` returns the instant. -/
theorem adjustPrograms_eq_id (loc : Location) (ps : List EPGProgram) :
    adjustPrograms loc ps = ps := by
  simp [adjustPrograms, timeUnix, GoTime.timeIn, GoTime.unix]

/- Claim theorems. -/

/-- C1: with `RequiresCreateLink` unset, `GetPlaybackURL` returns the
command unchanged and no error, issues no request, and leaves the client
(token and config included) unchanged, whatever the transport would have
answered. -/
theorem getPlaybackURL_no_indirection_identity
    (c : StalkerClient) (hresp linkResp : Option HttpResponse) (cmd : String)
    (hflag : c.Config.RequiresCreateLink = false) (_hcmd : cmd ≠ "") :
    getPlaybackURL c hresp linkResp cmd = (Except.ok (cmd, c), []) := by
  simp [getPlaybackURL, hflag]

/-- Witness for C1 at a concrete client and command. -/
theorem getPlaybackURL_no_indirection_identity_witness :
    baseClient.Config.RequiresCreateLink = false ∧ "http://host/stream" ≠ "" ∧
    getPlaybackURL baseClient none none "http://host/stream"
      = (Except.ok ("http://host/stream", baseClient), []) :=
  ⟨rfl, by decide,
    getPlaybackURL_no_indirection_identity baseClient none none "http://host/stream"
      rfl (by decide)⟩

/-- C6: after `ProbeServer`, `RequiresCreateLink` holds exactly when it
already held or this call's create-link trial succeeded, and the trial
succeeds exactly on a transport success with HTTP 200 and a decodable
envelope with non-empty `js.cmd`. -/
theorem probe_indirection_iff (c : StalkerClient) (g l : Option HttpResponse) :
    ((probeServer c g l).1.Config.RequiresCreateLink
        = (c.Config.RequiresCreateLink || linkTrialSets l)) ∧
    (linkTrialSets l = true ↔
      ∃ r response, l = some r ∧ r.statusCode = 200 ∧
        decodeCreateLinkBody r.body = some response ∧ response.js.cmd ≠ "") := by
  constructor
  · by_cases hg : gzipTrialSets g <;> by_cases hl : linkTrialSets l <;>
      simp [probeServer, hg, hl]
  · cases l with
    | none => simp [linkTrialSets]
    | some r =>
      simp only [linkTrialSets]
      by_cases h200 : r.statusCode = 200
      · cases hdec : decodeCreateLinkBody r.body with
        | none => simp [h200, hdec]
        | some response => simp [h200, hdec, bne_iff_ne]
      · simp [h200, beq_iff_eq]

/-- Witness for C6: a 200 answer with non-empty cmd raises the flag from a
fresh profile. -/
theorem probe_indirection_iff_witness :
    (probeServer baseClient none (some createLinkOkResp)).1.Config.RequiresCreateLink = true := by
  rw [(probe_indirection_iff baseClient none (some createLinkOkResp)).1]
  rfl

/-- C7: `ProbeServer` returns a nil error for every combination of
transport answers, and a transport failure on the gzip trial leaves
`SupportsGzip` at its prior value. -/
theorem probe_never_errors (c : StalkerClient) (g l : Option HttpResponse) :
    (probeServer c g l).2 = none ∧
    (probeServer c none l).1.Config.SupportsGzip = c.Config.SupportsGzip := by
  refine ⟨rfl, ?_⟩
  by_cases hl : linkTrialSets l <;> simp [probeServer, gzipTrialSets, hl]

/-- C8: on a decodable handshake response `authenticate` stores exactly the
decoded token and changes nothing else (the result is `c` with only `Token`
replaced); on a decode failure or a transport failure it returns an error,
and no updated client exists (the Go method returns before the `c.Token`
assignment, leaving all state unchanged). -/
theorem authenticate_frame (c : StalkerClient) (r : HttpResponse) :
    (∀ hr, decodeHandshakeBody r.body = some hr →
        authenticate c (some r) = Except.ok { c with Token := hr.js.token }) ∧
    (decodeHandshakeBody r.body = none →
        authenticate c (some r) = Except.error "failed to parse handshake response") ∧
    authenticate c none = Except.error "handshake request failed" := by
  refine ⟨fun hr hdec => ?_, fun hdec => ?_, rfl⟩
  · simp [authenticate, hdec]
  · simp [authenticate, hdec]

/-- Witness for C8 at a concrete valid handshake response. -/
theorem authenticate_frame_witness :
    authenticate baseClient (some handshakeOkResp)
      = Except.ok { baseClient with Token := "abc123" } :=
  (authenticate_frame baseClient handshakeOkResp).1 { js := { token := "abc123" } } rfl

/-- With an empty token, `GetChannels` issues the handshake request first. -/
theorem getChannels_trace_starts_handshake
    (c : StalkerClient) (h ch : Option HttpResponse) (htok : c.Token = "") :
    (getChannels c h ch).2.head? = some ReqKind.handshake := by
  unfold getChannels
  simp only [htok, if_pos]
  cases hauth : authenticate c h with
  | error e => simp
  | ok c1 =>
    cases ch with
    | none => simp
    | some r =>
      cases hsel : selectReader c1.Config r with
      | none => simp [hsel]
      | some reader =>
        cases hdec : decodeChannelListBody reader with
        | none => simp [hsel, hdec]
        | some response => simp [hsel, hdec]

/-- With an empty token and indirection required, `GetPlaybackURL` issues
the handshake request first. -/
theorem getPlaybackURL_trace_starts_handshake
    (c : StalkerClient) (h l : Option HttpResponse) (cmd : String)
    (htok : c.Token = "") (hflag : c.Config.RequiresCreateLink = true) :
    (getPlaybackURL c h l cmd).2.head? = some ReqKind.handshake := by
  unfold getPlaybackURL
  simp only [htok, hflag, if_pos, Bool.not_true, Bool.false_eq_true, if_false]
  cases hauth : authenticate c h with
  | error e => simp
  | ok c1 =>
    cases l with
    | none => simp
    | some r =>
      cases hdec : decodeCreateLinkBody r.body with
      | none => simp [hdec]
      | some response => simp [hdec]

/-- With an empty token, `GetEPG` issues the handshake request first. -/
theorem getEPG_trace_starts_handshake
    (c : StalkerClient) (h e : Option HttpResponse) (chId : String)
    (htok : c.Token = "") :
    (getEPG c h e chId).2.head? = some ReqKind.handshake := by
  unfold getEPG
  simp only [htok, if_pos]
  cases hauth : authenticate c h with
  | error e => simp
  | ok c1 =>
    cases e with
    | none => simp
    | some r =>
      cases hdec : decodeEPGBody r.body with
      | none => simp [hdec]
      | some resp =>
        cases hloc : loadLocation c1.Timezone with
        | none => simp [hdec, hloc]
        | some loc => simp [hdec, hloc]

/-- C9: a syntactically valid handshake body without a `js.token` member
(`{}` or `{"js":{}}`) decodes successfully to the zero-valued struct, so
`Authenticate` returns no error and stores the empty token; a client whose
token is empty then re-issues the handshake as the first request of the
next authenticated operation (`GetChannels`, `GetPlaybackURL` under
indirection, `GetEPG`). -/
theorem authenticate_missing_token_then_reauth (c : StalkerClient)
    (hresp chresp lresp eresp : Option HttpResponse) (cmd chId : String) :
    authenticate c (some handshakeEmptyObjResp) = Except.ok { c with Token := "" } ∧
    authenticate c (some handshakeEmptyJsResp) = Except.ok { c with Token := "" } ∧
    (getChannels { c with Token := "" } hresp chresp).2.head? = some ReqKind.handshake ∧
    (c.Config.RequiresCreateLink = true →
      (getPlaybackURL { c with Token := "" } hresp lresp cmd).2.head?
        = some ReqKind.handshake) ∧
    (getEPG { c with Token := "" } hresp eresp chId).2.head? = some ReqKind.handshake := by
  refine ⟨rfl, rfl, ?_, fun hflag => ?_, ?_⟩
  · exact getChannels_trace_starts_handshake _ hresp chresp rfl
  · exact getPlaybackURL_trace_starts_handshake _ hresp lresp cmd rfl hflag
  · exact getEPG_trace_starts_handshake _ hresp eresp chId rfl

/-- Witness for C9 at a concrete client whose profile requires
indirection. -/
theorem authenticate_missing_token_then_reauth_witness :
    authenticate { baseClient with Config.RequiresCreateLink := true }
        (some handshakeEmptyObjResp)
      = Except.ok { baseClient with Config.RequiresCreateLink := true, Token := "" } ∧
    (getPlaybackURL { baseClient with Config.RequiresCreateLink := true, Token := "" }
        none none "cmd1").2.head? = some ReqKind.handshake :=
  ⟨(authenticate_missing_token_then_reauth
      { baseClient with Config.RequiresCreateLink := true }
      none none none none "cmd1" "7").1,
   (authenticate_missing_token_then_reauth
      { baseClient with Config.RequiresCreateLink := true }
      none none none none "cmd1" "7").2.2.2.1 rfl⟩

/-- C3: `GetEPG`'s per-entry timestamp adjustment is the identity: whenever
the response decodes and the configured timezone resolves, the returned
programs are exactly the decoded ones, Start and Stop included. -/
theorem getEPG_timestamps_unchanged
    (c : StalkerClient) (hresp : Option HttpResponse) (chId : String)
    (r : HttpResponse) (resp : EPGResponse) (loc : Location)
    (htok : c.Token ≠ "") (hdec : decodeEPGBody r.body = some resp)
    (hloc : loadLocation c.Timezone = some loc) :
    (getEPG c hresp (some r) chId).1 = Except.ok (resp.js.programs, c) := by
  simp [getEPG, htok, hdec, hloc, adjustPrograms_eq_id]

/-- Witness for C3: a decoded entry with epoch 1700000000 comes back with
its epochs untouched. -/
theorem getEPG_timestamps_unchanged_witness :
    (getEPG tokenClient none (some epgOkResp) "2").1
      = Except.ok ([epochProgram], tokenClient) :=
  getEPG_timestamps_unchanged tokenClient none "2" epgOkResp
    { js := { programs := [epochProgram] } } Location.utc (by decide) rfl rfl

/-- C10: the single channel declaration carries the `channelID` argument as
both id and display name, each programme's channel attribute is the input
entry's own ChannelID, and an entry whose ChannelID differs from the
argument yields a programme referencing a channel id that no channel
declaration of the document carries. -/
theorem convert_channel_mismatch
    (c : StalkerClient) (chId : String) (ps : List EPGProgram) (x : XMLTV)
    (hok : convertEPGToXMLTV c chId ps = Except.ok x) :
    x.channels = [{ id := chId, displayName := chId }] ∧
    x.programs.map (fun q => q.channel) = ps.map (fun p => p.channelID) ∧
    ∀ p ∈ ps, p.channelID ≠ chId →
      ∃ q ∈ x.programs, q.channel = p.channelID ∧
        ∀ cd ∈ x.channels, cd.id ≠ q.channel := by
  unfold convertEPGToXMLTV at hok
  cases hloc : loadLocation c.Timezone with
  | none => rw [hloc] at hok; exact absurd hok (by simp)
  | some loc =>
    rw [hloc] at hok
    simp only [Except.ok.injEq] at hok
    subst hok
    refine ⟨rfl, by simp, fun p hp hne => ?_⟩
    refine ⟨_, List.mem_map_of_mem _ hp, rfl, fun cd hcd => ?_⟩
    simp only [List.mem_singleton] at hcd
    subst hcd
    exact fun hcontra => hne (hcontra.symm)

/-- Witness for C10: converting an entry whose ChannelID is "2" under the
channel argument "1" declares channel "1" but emits a programme for
channel "2". -/
theorem convert_channel_mismatch_witness :
    ∃ x, convertEPGToXMLTV tokenClient "1" [epochProgram] = Except.ok x ∧
      (x.channels = [{ id := "1", displayName := "1" }] ∧
       x.programs.map (fun q => q.channel) = [epochProgram].map (fun p => p.channelID) ∧
       ∀ p ∈ [epochProgram], p.channelID ≠ "1" →
         ∃ q ∈ x.programs, q.channel = p.channelID ∧
           ∀ cd ∈ x.channels, cd.id ≠ q.channel) := by
  refine ⟨_, rfl, convert_channel_mismatch tokenClient "1" [epochProgram] _ rfl⟩

/-- C2 counterexample: epoch 1700000000 is 2023-11-14 22:13:20 UTC, so the
conversion yields the stamp `20231114221320 +0000` under "UTC" and
`20231114171320 -0500` under "America/New_York" — not the stamps
`20231114222640 +0000` and `20231114172640 -0500` the claim asserts. -/
theorem convert_stamp_claimed_values_refuted :
    ((convertEPGToXMLTV tokenClient "2" [epochProgram]).toOption.map
        fun x => x.programs.map fun q => q.start) = some ["20231114221320 +0000"] ∧
    ((convertEPGToXMLTV nyClient "2" [epochProgram]).toOption.map
        fun x => x.programs.map fun q => q.start) = some ["20231114171320 -0500"] ∧
    ("20231114221320 +0000" : String) ≠ "20231114222640 +0000" ∧
    ("20231114171320 -0500" : String) ≠ "20231114172640 -0500" :=
  ⟨rfl, rfl, by decide, by decide⟩

/-- C2 amended: the conversion of a program entry with startEpoch
1700000000 produces the start stamp `20231114221320 +0000` under "UTC" and
`20231114171320 -0500` under "America/New_York", in the format
YYYYMMDDHHmmss followed by a space and a ±HHMM numeric UTC offset with no
colon. -/
theorem convert_stamp_values :
    convertEPGToXMLTV tokenClient "2" [epochProgram]
      = Except.ok
          { channels := [{ id := "2", displayName := "2" }]
            programs := [{ start := "20231114221320 +0000", stop := "20231114221320 +0000"
                           channel := "2", title := "News", desc := "d", category := "c" }] } ∧
    convertEPGToXMLTV nyClient "2" [epochProgram]
      = Except.ok
          { channels := [{ id := "2", displayName := "2" }]
            programs := [{ start := "20231114171320 -0500", stop := "20231114171320 -0500"
                           channel := "2", title := "News", desc := "d", category := "c" }] } :=
  ⟨rfl, rfl⟩

/-- C4 counterexample: against one and the same pair of trial responses
(an uncompressed answer and a 404), a probe on a client whose flags are
both already true leaves them both true, while a probe on a fresh client
leaves them both false — the resulting profile depends on the values the
flags held before the call, so the call does not re-derive them from
scratch. -/
theorem probe_overwrite_refuted :
    (probeServer
        { baseClient with Config := { SupportsGzip := true, RequiresCreateLink := true } }
        (some plainResp) (some notFoundResp)).1.Config
      = { SupportsGzip := true, RequiresCreateLink := true } ∧
    (probeServer baseClient (some plainResp) (some notFoundResp)).1.Config
      = { SupportsGzip := false, RequiresCreateLink := false } ∧
    ({ SupportsGzip := true, RequiresCreateLink := true } : ServerConfig)
      ≠ { SupportsGzip := false, RequiresCreateLink := false } :=
  ⟨rfl, rfl, by decide⟩

/-- C4 amended: each `ProbeServer` call can only raise the flags — after
the call each flag is its prior value OR-ed with this call's trial result,
a flag already true is never reset, and the call reports no error;
consequently probing is idempotent: re-running it against an unchanged
server leaves the profile unchanged, so calling it twice yields an
identical ServerProfile both times. -/
theorem probe_monotone_idempotent (c : StalkerClient) (g l : Option HttpResponse) :
    (probeServer c g l).1.Config.SupportsGzip
      = (c.Config.SupportsGzip || gzipTrialSets g) ∧
    (probeServer c g l).1.Config.RequiresCreateLink
      = (c.Config.RequiresCreateLink || linkTrialSets l) ∧
    probeServer (probeServer c g l).1 g l = probeServer c g l ∧
    (probeServer c g l).2 = none := by
  by_cases hg : gzipTrialSets g <;> by_cases hl : linkTrialSets l <;>
    simp [probeServer, hg, hl]

/-- C5 counterexample: a response whose Content-Encoding header is "gzip"
and whose body is gzip-compressed is NOT decompressed when the profile's
`SupportsGzip` is false — decoding the still-compressed body fails —
whereas the same response is inflated and decoded once the flag is set, so
the inflation is gated on the probed capability as well as on the header. -/
theorem getChannels_header_only_inflation_refuted :
    (getChannels tokenClient none (some gzipChannelsResp)).1
      = Except.error "failed to parse channels response" ∧
    (getChannels { tokenClient with Config.SupportsGzip := true }
        none (some gzipChannelsResp)).1
      = Except.ok ([channelFixture], { tokenClient with Config.SupportsGzip := true }) :=
  ⟨rfl, rfl⟩

/-- C5 amended: `GetChannels` interposes the gzip inflater on the response
body exactly when the profile's `SupportsGzip` flag is set AND the
response's Content-Encoding header equals "gzip"; with both conditions met
a gzip-compressed body is inflated before JSON decoding, and otherwise the
body is passed to the decoder untouched. -/
theorem getChannels_inflation_iff (cfg : ServerConfig) (r : HttpResponse) (j : Json)
    (hb : r.body = Body.gzipJson j) :
    (selectReader cfg r = some (Body.json j) ↔
      (cfg.SupportsGzip = true ∧ r.contentEncoding = "gzip")) ∧
    (¬(cfg.SupportsGzip = true ∧ r.contentEncoding = "gzip") →
      selectReader cfg r = some (Body.gzipJson j)) := by
  constructor
  · constructor
    · intro hsel
      by_contra hcond
      rw [selectReader, if_neg ?_] at hsel
      · rw [hb] at hsel
        simp at hsel
      · intro hc
        exact hcond ⟨hc.1, hc.2⟩
    · intro hcond
      rw [selectReader, if_pos ⟨hcond.1, hcond.2⟩, hb]
      rfl
  · intro hcond
    rw [selectReader, if_neg ?_, hb]
    intro hc
    exact hcond ⟨hc.1, hc.2⟩

/-- Witness for the C5 amendment: with the flag set and the header present
the compressed channel envelope is inflated. -/
theorem getChannels_inflation_iff_witness :
    selectReader { SupportsGzip := true, RequiresCreateLink := false } gzipChannelsResp
      = some (Body.json channelsJson) :=
  (getChannels_inflation_iff { SupportsGzip := true, RequiresCreateLink := false }
      gzipChannelsResp channelsJson rfl).1.mpr ⟨rfl, rfl⟩

end Stalkerlib
